import Mathlib

/-!
Verification of the unicity-sol-bridge proof pipeline.

This file gives a shallow embedding, in Lean 4, of the pure decision logic
of the bridge repository:

* the binary TokenLocked event codec (`parseTokenLockedEvent`, file
  validate-token.ts), together with a serializer for the documented layout;
* the Confirmation Oracle fallback of `SolanaLightClient.verifyBlockHash`
  (file proof-validator.ts);
* the proof validator `validateGenesisProof`, `verifySignatureStatus` and
  `validateCryptographicChain` (file proof-validator.ts);
* the identity derivation pre-images (`mintBridgedTokenWithSDK` in
  unicity-sdk-simple.ts and `validateTokenIdDerivation` in validate-token.ts);
* the early pipeline of `UnicityTokenValidator.validateToken`
  (validate-token.ts) up to the mandatory minter-signature presence check;
* the monitor state machine `processBridgeEvent` (demo-bridge-monitor.ts).

Buffers are modelled as `List Nat` of byte values, JavaScript strings as
`String`, nullable fields as `Option`, thrown-and-caught exceptions as
`Except String`.  External RPC and SDK calls are modelled as parameters that
carry the observable outcome of the call.  SHA-256 is treated as an opaque
function; theorems about identifier derivation are stated about the hash
pre-images (which the code builds by string concatenation) and about an
arbitrary injective hash function.
-/

/-! ## Byte-level helpers (validate-token.ts `readU64LE` / `readI64LE`) -/

/-- Byte of a buffer at an index, 0 when out of range.  The TypeScript code
only reads inside bounds it has checked beforehand. -/
def byteAt (b : List Nat) (i : Nat) : Nat := b.getD i 0

/-- `Buffer.readUInt32LE(offset)`: little-endian 32-bit unsigned read. -/
def readU32LE (b : List Nat) (off : Nat) : Nat :=
  byteAt b off + 256 * byteAt b (off + 1) + 65536 * byteAt b (off + 2) +
    16777216 * byteAt b (off + 3)

/-- `Buffer.readInt32LE(offset)`: little-endian 32-bit signed read. -/
def readS32LE (b : List Nat) (off : Nat) : Int :=
  let u := readU32LE b off
  if u < 2147483648 then (u : Int) else (u : Int) - 4294967296

/-- `readU64LE` of validate-token.ts: reads the low and high 32-bit halves of
an 8-byte buffer and returns `low + (high << 32)`. -/
def readU64LE (b : List Nat) : Nat :=
  readU32LE b 0 + 4294967296 * readU32LE b 4

/-- `readI64LE` of validate-token.ts: same but with a signed high half. -/
def readI64LE (b : List Nat) : Int :=
  (readU32LE b 0 : Int) + 4294967296 * readS32LE b 4

/-- Little-endian encoding of a 32-bit value (4 bytes). -/
def u32LE (n : Nat) : List Nat :=
  [n % 256, n / 256 % 256, n / 65536 % 256, n / 16777216 % 256]

/-- Little-endian encoding of a 64-bit value (8 bytes). -/
def u64LE (n : Nat) : List Nat :=
  u32LE (n % 4294967296) ++ u32LE (n / 4294967296 % 4294967296)

/-- Little-endian two's-complement encoding of a signed 64-bit value. -/
def i64LE (z : Int) : List Nat :=
  u64LE (Int.toNat (z % 18446744073709551616))

/-! ## The TokenLocked event codec (validate-token.ts `parseTokenLockedEvent`) -/

/-- The Anchor event discriminator of TokenLocked, from the IDL. -/
def tokenLockedDiscriminator : List Nat := [18, 238, 170, 48, 2, 120, 199, 224]

/-- A decoded TokenLocked event.  The source renders `lockId` and `user` as
hex / base58 strings and the integers as decimal strings; those renderings are
injective, so the event is modelled at the value level: raw byte lists for the
fixed-size fields, the UTF-8 bytes of the recipient string, and integers. -/
structure RawLockEvent where
  lockId : List Nat
  user : List Nat
  amount : Nat
  recipientBytes : List Nat
  nonce : Nat
  timestamp : Int
deriving DecidableEq, Repr

/-- The binary log layout documented for TokenLocked: 8-byte discriminator,
32-byte lock id, 32-byte user key, u64 LE amount, 4-byte LE length-prefixed
UTF-8 recipient, u64 LE nonce, i64 LE timestamp. -/
def serializeTokenLockedEvent (e : RawLockEvent) : List Nat :=
  tokenLockedDiscriminator ++ e.lockId ++ e.user ++ u64LE e.amount ++
    u32LE e.recipientBytes.length ++ e.recipientBytes ++ u64LE e.nonce ++
    i64LE e.timestamp

/-- Well-formedness of an event w.r.t. the binary layout: fixed field widths
and integer ranges.  (`recipientBytes.length < 2^32` bounds the length
prefix.) -/
def RawLockEvent.wf (e : RawLockEvent) : Prop :=
  e.lockId.length = 32 ∧ e.user.length = 32 ∧ e.amount < 18446744073709551616 ∧
    e.recipientBytes.length < 4294967296 ∧ e.nonce < 18446744073709551616 ∧
    -9223372036854775808 ≤ e.timestamp ∧ e.timestamp < 9223372036854775808

instance (e : RawLockEvent) : Decidable e.wf := by
  unfold RawLockEvent.wf; infer_instance

/-- `parseTokenLockedEvent` of validate-token.ts.  Every `throw` that the
source catches and converts to `null` is modelled as `none`.  The offsets are
the cumulative ones computed by the source (8, 40, 72, 80, 84, 84+len,
92+len). -/
def parseTokenLockedEvent (d : List Nat) : Option RawLockEvent :=
  if d.length < 8 then none
  else if d.take 8 ≠ tokenLockedDiscriminator then none
  else if d.length < 40 then none
  else
    let lockId := (d.drop 8).take 32
    if d.length < 72 then none
    else
      let user := (d.drop 40).take 32
      if d.length < 80 then none
      else
        let amount := readU64LE ((d.drop 72).take 8)
        if d.length < 84 then none
        else
          let rlen := readU32LE d 80
          if d.length < 84 + rlen then none
          else
            let recip := (d.drop 84).take rlen
            if d.length < 84 + rlen + 8 then none
            else
              let nonce := readU64LE ((d.drop (84 + rlen)).take 8)
              if d.length < 92 + rlen + 8 then none
              else
                let ts := readI64LE ((d.drop (92 + rlen)).take 8)
                some ⟨lockId, user, amount, recip, nonce, ts⟩

/-! ## Character-class models of the regular expressions in the source -/

/-- One character of the base58 alphabet `[1-9A-HJ-NP-Za-km-z]`. -/
def isBase58Char (c : Char) : Bool :=
  (decide (49 ≤ c.toNat) && decide (c.toNat ≤ 57)) ||
  (decide (65 ≤ c.toNat) && decide (c.toNat ≤ 72)) ||
  (decide (74 ≤ c.toNat) && decide (c.toNat ≤ 78)) ||
  (decide (80 ≤ c.toNat) && decide (c.toNat ≤ 90)) ||
  (decide (97 ≤ c.toNat) && decide (c.toNat ≤ 107)) ||
  (decide (109 ≤ c.toNat) && decide (c.toNat ≤ 122))

/-- The block-hash format test of `verifyBlockHash`:
`/^[1-9A-HJ-NP-Za-km-z]{32,44}$/`. -/
def blockHashFormatValid (s : String) : Bool :=
  decide (32 ≤ s.data.length) && decide (s.data.length ≤ 44) &&
    s.data.all isBase58Char

/-- The transaction-signature format test of `consistentSolanaLockingProof`:
`/^[1-9A-HJ-NP-Za-km-z]{87,88}$/`. -/
def txSignatureFormatValid (s : String) : Bool :=
  decide (87 ≤ s.data.length) && decide (s.data.length ≤ 88) &&
    s.data.all isBase58Char

/-- One character of `[a-f0-9]` read case-insensitively (`/i`). -/
def isHexDigitChar (c : Char) : Bool :=
  (decide (48 ≤ c.toNat) && decide (c.toNat ≤ 57)) ||
  (decide (97 ≤ c.toNat) && decide (c.toNat ≤ 102)) ||
  (decide (65 ≤ c.toNat) && decide (c.toNat ≤ 70))

/-- The monitor test `/^[a-f0-9]{64}$/i.test(recipient)`. -/
def recipientLooksLikeDigest (s : String) : Bool :=
  decide (s.data.length = 64) && s.data.all isHexDigitChar

/-! ## Confirmation Oracle (`SolanaLightClient.verifyBlockHash`) -/

/-- The three observable outcomes of `verifyBlockHash`: returning `true`,
returning `false`, or throwing the `VALIDATION_PENDING` control-flow error. -/
inductive BlockCheck where
  | verified
  | failed
  | pending
deriving DecidableEq, Repr

/-- The fallback path of `verifyBlockHash`, taken when the direct finalized
block lookup is unavailable.  `trusted` is the light client tracked set of
trusted block hashes; the accepted hash is added to it.  `currentSlot` is the
result of `getSlot("finalized")`. -/
def verifyBlockHashFallback (trusted : List String) (blockHash : String)
    (blockHeight : Nat) (currentSlot : Nat) : BlockCheck × List String :=
  if blockHashFormatValid blockHash = false then (.failed, trusted)
  else
    let blockAge : Int := (currentSlot : Int) - (blockHeight : Int)
    if blockAge < 0 then (.pending, trusted)
    else if blockAge < 10 then (.pending, trusted)
    else (.verified, blockHash :: trusted)

/-- Result of the direct `getBlock(height, finalized)` lookup: the finalized
block hash when the RPC produced the block, or unavailability (null result or
a thrown RPC error, both of which the source sends to the fallback path). -/
inductive DirectBlockLookup where
  | found (blockhash : String)
  | unavailable
deriving DecidableEq, Repr

/-- `verifyBlockHash` in full: direct comparison when the finalized block is
available, the fallback otherwise. -/
def verifyBlockHash (trusted : List String) (direct : DirectBlockLookup)
    (blockHash : String) (blockHeight : Nat) (currentSlot : Nat) :
    BlockCheck × List String :=
  match direct with
  | .found bh =>
      if bh = blockHash then (.verified, blockHash :: trusted)
      else (.failed, trusted)
  | .unavailable => verifyBlockHashFallback trusted blockHash blockHeight currentSlot

/-! ## Data model of proofs (bridge-client.ts / proof-validator.ts) -/

/-- The `signatureStatus` record returned by `getSignatureStatuses`.
`confirmationStatus` is an optional string field (absent modelled as `none`),
`confirmations` is a number or null, `err` is a nullable error payload,
`slot` is a number field that may be absent. -/
structure SigStatus where
  confirmationStatus : Option String
  confirmations : Option Int
  err : Option String
  slot : Option Int
deriving DecidableEq, Repr

/-- The nested `transaction` object inside a stored full transaction:
`txData.transaction.signatures` may be absent. -/
structure TxInner where
  signatures : Option (List String)
deriving DecidableEq, Repr

/-- A stored full Solana transaction (`fullTransaction` in ProofData /
`solanaTransaction.transaction` in a genesis proof), reduced to the fields the
validators read: the nested `transaction` object may be absent. -/
structure StoredTx where
  txn : Option TxInner
deriving DecidableEq, Repr

/-- The `LockEvent` of bridge-client.ts: `lockId : number[]`, `user` a public
key (modelled by its string rendering), `amount`, `nonce`, `timestamp` BN
integers, `unicityRecipient` a string. -/
structure LockEventBN where
  lockId : List Nat
  user : String
  amount : Int
  unicityRecipient : String
  nonce : Int
  timestamp : Int
deriving DecidableEq, Repr

/-- The `ProofData` of bridge-client.ts, flattened to the fields that
`validateGenesisProof` reads. -/
structure ProofDataM where
  event : LockEventBN
  slot : Nat
  blockHash : String
  blockHeight : Nat
  txSignature : String
  txBlockTime : Option Int
  fullTransaction : Option StoredTx
  signatureStatus : Option SigStatus
deriving DecidableEq, Repr

/-! ## Genesis proof artifact (`UnicityGenesisProof`) -/

/-- The `lockEvent` block of a `UnicityGenesisProof`: every field reshaped to
its canonical string form. -/
structure GenesisLockEvent where
  lockId : String
  user : String
  amount : String
  unicityRecipient : String
  nonce : String
  timestamp : String
deriving DecidableEq, Repr

/-- The `solanaTransaction` block of a `UnicityGenesisProof`. -/
structure GenesisSolanaTx where
  signature : String
  transactionData : Option StoredTx
  blockHeight : Nat
  slot : Nat
  blockTime : Option Int
  confirmationStatus : String
deriving DecidableEq, Repr

/-- The `validation` block of a `UnicityGenesisProof`.  `status` and `reason`
are optional fields: the source only adds them in the pending case. -/
structure GenesisValidation where
  blockVerified : Bool
  signatureStatusVerified : Bool
  timestamp : Nat
  status : Option String
  reason : Option String
deriving DecidableEq, Repr

/-- A `UnicityGenesisProof` (the ValidatedProof artifact). -/
structure GenesisProofM where
  lockEvent : GenesisLockEvent
  solanaTransaction : GenesisSolanaTx
  validation : GenesisValidation
deriving DecidableEq, Repr

/-- Lowercase hex rendering of a byte list (`Buffer.toString("hex")`). -/
def hexOfBytes (bs : List Nat) : String :=
  String.mk (List.flatten (bs.map (fun b =>
    [ "0123456789abcdef".data.getD (b / 16 % 16) (Char.ofNat 48),
      "0123456789abcdef".data.getD (b % 16) (Char.ofNat 48) ])))

/-- The reshaped lock event embedded into a genesis proof by
`validateGenesisProof`: lock id as hex, integers as decimal strings. -/
def toGenesisLockEvent (e : LockEventBN) : GenesisLockEvent :=
  { lockId := hexOfBytes e.lockId
    user := e.user
    amount := toString e.amount
    unicityRecipient := e.unicityRecipient
    nonce := toString e.nonce
    timestamp := toString e.timestamp }

/-! ## Proof Validator (`UnicityProofValidator`) -/

/-- `validateLockEvent` of proof-validator.ts: structural checks on the
embedded lock event, each failure thrown as an error. -/
def validateLockEvent (e : LockEventBN) : Except String Unit :=
  if e.lockId.length ≠ 32 then .error "Invalid lock ID"
  else if e.user = "" then .error "Invalid user address"
  else if e.amount ≤ 0 then .error "Invalid amount"
  else if e.unicityRecipient = "" then .error "Invalid Unicity recipient"
  else if e.nonce < 0 then .error "Invalid nonce"
  else if e.timestamp ≤ 0 then .error "Invalid timestamp"
  else .ok ()

/-- `verifySignatureStatus` of proof-validator.ts: a non-null `err` fails,
then the confirmation status must be one of the three enum values.  (The
zero-confirmations branch in the source only logs a warning.) -/
def verifySignatureStatus (confirmationStatus : String) (_confirmations : Int)
    (err : Option String) (_slot : Int) : Bool :=
  if err.isSome then false
  else decide (confirmationStatus = "processed" ∨
    confirmationStatus = "confirmed" ∨ confirmationStatus = "finalized")

/-- Step 3 of `validateGenesisProof`: the guard
`proof.signatureStatus && proof.signatureStatus.confirmationStatus &&
typeof confirmations === "number" && typeof slot === "number"` followed by
`verifySignatureStatus`; every failing guard yields `false` without
raising. -/
def signatureStatusVerifiedOf (o : Option SigStatus) : Bool :=
  match o with
  | none => false
  | some r =>
    match r.confirmationStatus, r.confirmations, r.slot with
    | some cs, some cf, some sl =>
        if cs = "" then false else verifySignatureStatus cs cf r.err sl
    | _, _, _ => false

/-- `proof.signatureStatus?.confirmationStatus || "unknown"`. -/
def confirmationStatusOf (o : Option SigStatus) : String :=
  match o with
  | none => "unknown"
  | some r =>
    match r.confirmationStatus with
    | none => "unknown"
    | some cs => if cs = "" then "unknown" else cs

/-- The genesis proof record built at the end of `validateGenesisProof`.
`status` and `reason` are only present when the block is not verified. -/
def mkGenesisProof (p : ProofDataM) (blockVerified sigVer : Bool) (now : Nat) :
    GenesisProofM :=
  { lockEvent := toGenesisLockEvent p.event
    solanaTransaction :=
      { signature := p.txSignature
        transactionData := p.fullTransaction
        blockHeight := p.blockHeight
        slot := p.slot
        blockTime := p.txBlockTime
        confirmationStatus := confirmationStatusOf p.signatureStatus }
    validation :=
      { blockVerified := blockVerified
        signatureStatusVerified := sigVer
        timestamp := now
        status := if blockVerified then none else some "PENDING_VALIDATION"
        reason :=
          if blockVerified then none
          else some ("Block " ++ toString p.blockHeight ++
            " too recent for RPC validation") } }

/-- `validateGenesisProof` of proof-validator.ts.  `blockOutcome` is the
observable outcome of the `verifyBlockHash` call (§4.2); `txExists` is the
outcome of the `validateTransactionExists` RPC check, consulted only when
both the block and the signature status verified; `now` is `Date.now()`.
A `false` from `verifyBlockHash` is turned into the thrown fatal error
`Block hash verification failed`; the thrown `VALIDATION_PENDING` error is
caught and recorded as `blockVerified = false`. -/
def validateGenesisProof (p : ProofDataM) (blockOutcome : BlockCheck)
    (txExists : Except String Unit) (now : Nat) : Except String GenesisProofM :=
  match validateLockEvent p.event with
  | .error e => .error e
  | .ok _ =>
    let bv : Except String Bool :=
      match blockOutcome with
      | .verified => .ok true
      | .failed => .error "Block hash verification failed"
      | .pending => .ok false
    match bv with
    | .error e => .error e
    | .ok blockVerified =>
      let sigVer := signatureStatusVerifiedOf p.signatureStatus
      let extra : Except String Unit :=
        if blockVerified && sigVer then txExists else .ok ()
      match extra with
      | .error e => .error e
      | .ok _ => .ok (mkGenesisProof p blockVerified sigVer now)

/-! ## `validateCryptographicChain` (proof-validator.ts) -/

/-- The body of the `try` block of `validateCryptographicChain`.  `requery` is
the observable result of re-querying `getSignatureStatuses` for the stored
signature.  Each `throw` of the source is an `Except.error` here. -/
def validateCryptographicChainInner (requery : Option SigStatus)
    (g : GenesisProofM) : Except String Bool :=
  match requery with
  | none => .error "Transaction signature not found in Solana network"
  | some st =>
    if st.err.isSome then .error "Transaction failed"
    else
      match g.solanaTransaction.transactionData with
      | none => .ok true
      | some tx =>
        let sigCheck : Except String Unit :=
          match tx.txn with
          | some inner =>
            match inner.signatures with
            | some sigs =>
                if sigs.head? = some g.solanaTransaction.signature then .ok ()
                else .error "Transaction signature mismatch"
            | none => .ok ()
          | none => .ok ()
        match sigCheck with
        | .error e => .error e
        | .ok _ =>
            .ok (decide (g.solanaTransaction.confirmationStatus = "finalized" ∨
              g.solanaTransaction.confirmationStatus = "confirmed"))

/-- `validateCryptographicChain`: the outer `catch` converts every thrown
error into the return value `false`, so the function as a whole is total and
never raises. -/
def validateCryptographicChain (requery : Option SigStatus)
    (g : GenesisProofM) : Bool :=
  match validateCryptographicChainInner requery g with
  | .ok b => b
  | .error _ => false

/-! ## Identity & Commitment Deriver
(unicity-sdk-simple.ts `mintBridgedTokenWithSDK`, validate-token.ts) -/

/-- `[ ... ].join("|")`. -/
def joinPipe (parts : List String) : String := String.intercalate "|" parts

/-- The `commitmentData` built by `mintBridgedTokenWithSDK` from the genesis
proof: lock id, transaction signature, block height, user, amount, nonce and
timestamp, joined with the pipe separator. -/
def mintCommitmentData (g : GenesisProofM) : String :=
  joinPipe [g.lockEvent.lockId, g.solanaTransaction.signature,
    toString g.solanaTransaction.blockHeight, g.lockEvent.user,
    g.lockEvent.amount, g.lockEvent.nonce, g.lockEvent.timestamp]

/-- The SHA-256 pre-image of the token id on the minting path:
`commitmentData + "_tokenId"` (no minter signature is mixed in). -/
def mintTokenIdInput (commitmentData : String) : String :=
  commitmentData ++ "_tokenId"

/-- The SHA-256 pre-image of the deterministic salt on the minting path:
`commitmentData + "_salt"`. -/
def mintSaltInput (commitmentData : String) : String :=
  commitmentData ++ "_salt"

/-- The SHA-256 pre-image of the token type:
`"BRIDGED_SOL_FROM_SOLANA" + programId`. -/
def mintTokenTypeInput (programId : String) : String :=
  "BRIDGED_SOL_FROM_SOLANA" ++ programId

/-- The token id computed by the minting path, for a given hash function. -/
def mintTokenId (hash : String → List Nat) (commitmentData : String) : List Nat :=
  hash (mintTokenIdInput commitmentData)

/-! ## The token payload written by `mintBridgedTokenWithSDK` -/

/-- The decoded `tokenData` payload of a minted token
(`DecodedSolanaProof` in validate-token.ts): a bridge-type tag, the lock
event, the Solana transaction block, and an optional `minterSignature`
field. -/
structure TokenPayload where
  bridgeType : String
  lockEvent : GenesisLockEvent
  solanaTransaction : GenesisSolanaTx
  minterSignature : Option String
deriving DecidableEq, Repr

/-- The `tokenData` JSON object encoded by `mintBridgedTokenWithSDK`: exactly
the keys `bridgeType`, `lockEvent` and `solanaTransaction` (the latter copied
field by field from the genesis proof); no `minterSignature` key is ever
written, which the model records as `none`. -/
def mintTokenData (g : GenesisProofM) : TokenPayload :=
  { bridgeType := "SOLANA_BRIDGE"
    lockEvent := g.lockEvent
    solanaTransaction :=
      { signature := g.solanaTransaction.signature
        transactionData := g.solanaTransaction.transactionData
        blockHeight := g.solanaTransaction.blockHeight
        slot := g.solanaTransaction.slot
        blockTime := g.solanaTransaction.blockTime
        confirmationStatus := g.solanaTransaction.confirmationStatus }
    minterSignature := none }

/-! ## Independent Token Verifier (validate-token.ts `validateToken`) -/

/-- The `reconstructedCommitmentData` of `validateToken`: same fields, same
order, same separator as the minting path, read from the decoded payload. -/
def verifierCommitmentData (p : TokenPayload) : String :=
  joinPipe [p.lockEvent.lockId, p.solanaTransaction.signature,
    toString p.solanaTransaction.blockHeight, p.lockEvent.user,
    p.lockEvent.amount, p.lockEvent.nonce, p.lockEvent.timestamp]

/-- The SHA-256 pre-image used by `validateTokenIdDerivation`:
`commitmentData + minterSignature + "_tokenId"`. -/
def verifierTokenIdInput (commitmentData minterSignature : String) : String :=
  commitmentData ++ minterSignature ++ "_tokenId"

/-- `validateTokenIdDerivation`: recompute the expected token id from the
commitment data and the minter signature, and compare with the stored one. -/
def validateTokenIdDerivation (hash : String → List Nat) (actualTokenId : List Nat)
    (commitmentData minterSignature : String) : Bool :=
  actualTokenId = hash (verifierTokenIdInput commitmentData minterSignature)

/-- `consistentSolanaLockingProof` of validate-token.ts: pure structural
checks on the decoded payload; `none` models every early `return null`.
JavaScript string truthiness is emptiness here; `blockHeight` and `slot` are
numbers by construction of the model. -/
def consistentSolanaLockingProof (p : TokenPayload) : Option TokenPayload :=
  if p.bridgeType ≠ "SOLANA_BRIDGE" then none
  else if p.lockEvent.lockId = "" ∨ p.lockEvent.user = "" ∨
      p.lockEvent.amount = "" ∨ p.lockEvent.unicityRecipient = "" ∨
      p.lockEvent.nonce = "" ∨ p.lockEvent.timestamp = "" then none
  else if p.solanaTransaction.signature = "" then none
  else if txSignatureFormatValid p.solanaTransaction.signature = false then none
  else some p

/-- Where the early pipeline of `validateToken` stops. -/
inductive EarlyCheck where
  | deserFailed
  | inconsistentProof
  | missingMinterSignature
  | proceed (minterSignature : String)
deriving DecidableEq, Repr

/-- The early pipeline of `validateToken`: SDK deserialization (external,
outcome `deserOk`), then `consistentSolanaLockingProof`, then the mandatory
minter-signature presence check. -/
def validateTokenEarly (deserOk : Bool) (p : TokenPayload) : EarlyCheck :=
  if deserOk = false then .deserFailed
  else
    match consistentSolanaLockingProof p with
    | none => .inconsistentProof
    | some q =>
      match q.minterSignature with
      | none => .missingMinterSignature
      | some s => .proceed s

/-- `validateToken`, as a decision pipeline: the three early exits return
`valid = false` with the summary the source returns; the remaining
validation steps (key consistency, signature recovery, token id derivation
and the RPC checks) are abstracted as the continuation `rest`, which is never
reached when the minter signature is absent. -/
def validateToken (deserOk : Bool) (p : TokenPayload)
    (rest : String → Bool × String) : Bool × String :=
  match validateTokenEarly deserOk p with
  | .deserFailed => (false, "TokenFactory validation failed")
  | .inconsistentProof => (false, "Inconsistent Solana locking proof")
  | .missingMinterSignature => (false, "Missing mandatory minter signature field")
  | .proceed s => rest s

/-! ## Bridge Monitor (demo-bridge-monitor.ts) -/

/-- The recipient restoration of `processBridgeEvent` (and of `processEvent`
in the demo flow): a recipient that matches `/^[a-f0-9]{64}$/i` gets the
canonical `[SHA256]` tag back, every other recipient passes through
unchanged. -/
def restoreRecipient (s : String) : String :=
  if recipientLooksLikeDigest s then "[SHA256]" ++ s else s

/-- The `unicityRecipient` the monitor hands to `mintBridgedTokenWithSDK`
(demo-bridge-monitor.ts). -/
def monitorMintRecipient (e : LockEventBN) : String :=
  restoreRecipient e.unicityRecipient

/-- The `eventRecipient` the end-to-end demo hands to the integration mint
(`processEvent` in unicity-bridge-demo). -/
def demoEventRecipient (e : LockEventBN) : String :=
  restoreRecipient e.unicityRecipient

/-- The mutable monitor state: the persisted processed-transaction set, the
highest slot checked, and the processed-event counter. -/
structure MonitorState where
  processedTransactions : List String
  lastCheckedSlot : Nat
  processedEvents : Nat
deriving DecidableEq, Repr

/-- The observable outcome of one `processBridgeEvent` call.
`minted` records the recipient the mint submission was attempted with. -/
inductive ProcessOutcome where
  | skippedDuplicate
  | aborted (msg : String)
  | minted (recipient : String) (mintingFailed : Bool)
deriving DecidableEq, Repr

/-- `processBridgeEvent` of demo-bridge-monitor.ts as a state transition.
`blockOutcome`, `txExists` and `now` feed the embedded `validateGenesisProof`
call; `requery` feeds `validateCryptographicChain` (whose boolean result only
produces a log line); `mintOk` is the observable outcome of the external
`mintBridgedTokenWithSDK` call (`false` models a thrown SDK error, caught and
recorded as `mintingFailed`).  The duplicate check runs before any
validation; the transaction signature is added to the processed set, and the
slot watermark raised, only after the validation and mint attempt; a thrown
validation error is caught at the end of the function without touching the
state. -/
def processBridgeEvent (st : MonitorState) (p : ProofDataM)
    (blockOutcome : BlockCheck) (txExists : Except String Unit) (now : Nat)
    (requery : Option SigStatus) (mintOk : Bool) :
    MonitorState × ProcessOutcome :=
  if p.txSignature ∈ st.processedTransactions then (st, .skippedDuplicate)
  else
    match validateGenesisProof p blockOutcome txExists now with
    | .error e => (st, .aborted e)
    | .ok g =>
      let _chainValid := validateCryptographicChain requery g
      let recipient := restoreRecipient p.event.unicityRecipient
      let st' : MonitorState :=
        { processedTransactions := p.txSignature :: st.processedTransactions
          lastCheckedSlot := max st.lastCheckedSlot p.slot
          processedEvents := st.processedEvents + 1 }
      (st', .minted recipient (!mintOk))

/-! ## Concrete sample inputs used by witnesses and counterexamples -/

/-- A sample valid lock event used by concrete witnesses. -/
def sampleLockEvent : RawLockEvent :=
  { lockId := List.replicate 32 1
    user := List.replicate 32 2
    amount := 100000000
    recipientBytes := [97, 98, 99]
    nonce := 0
    timestamp := 1700000000 }

/-- A format-valid block hash: 32 base58 characters. -/
def sampleBlockHash : String := String.mk (List.replicate 32 'A')

/-- A format-valid transaction signature: 87 base58 characters. -/
def sampleTxSignature : String := String.mk (List.replicate 87 '1')

/-- A recipient that matches the 64-hex-character digest pattern. -/
def sampleHexRecipient : String := String.mk (List.replicate 64 'a')

/-- A healthy signature status: finalized, no error, fields all present. -/
def sampleSigStatus : SigStatus :=
  { confirmationStatus := some "finalized"
    confirmations := some 10
    err := none
    slot := some 1000 }

/-- A signature status whose `confirmations` field is null, as delivered for
deeply finalized transactions. -/
def nullConfirmationsSigStatus : SigStatus :=
  { confirmationStatus := some "finalized"
    confirmations := none
    err := none
    slot := some 1000 }

/-- A sample proof for a lock event whose recipient is a 64-hex digest. -/
def sampleProofData : ProofDataM :=
  { event :=
      { lockId := List.replicate 32 1
        user := "User1"
        amount := 100000000
        unicityRecipient := sampleHexRecipient
        nonce := 0
        timestamp := 1700000000 }
    slot := 1000
    blockHash := sampleBlockHash
    blockHeight := 1000
    txSignature := sampleTxSignature
    txBlockTime := some 1700000000
    fullTransaction := none
    signatureStatus := some sampleSigStatus }

/-- The genesis proof the validator produces from `sampleProofData` when the
block verified and the signature status verified. -/
def sampleGenesisProof : GenesisProofM := mkGenesisProof sampleProofData true true 0

/-- A genesis proof whose stored transaction carries a primary signature that
differs from the claimed one. -/
def mismatchGenesisProof : GenesisProofM :=
  { lockEvent := toGenesisLockEvent sampleProofData.event
    solanaTransaction :=
      { signature := sampleTxSignature
        transactionData := some { txn := some { signatures := some ["X"] } }
        blockHeight := 1000
        slot := 1000
        blockTime := none
        confirmationStatus := "finalized" }
    validation :=
      { blockVerified := true
        signatureStatusVerified := true
        timestamp := 0
        status := none
        reason := none } }

/-- A sample nonempty minter signature (hex string). -/
def sampleMinterSignature : String := "ab01"

/-! ## Codec lemmas -/

theorem byteAt_drop (l : List Nat) (n i : Nat) :
    byteAt (l.drop n) i = byteAt l (n + i) := by
  simp [byteAt, List.getD, List.getElem?_drop]

theorem byteAt_take (l : List Nat) (k i : Nat) (h : i < k) :
    byteAt (l.take k) i = byteAt l i := by
  simp [byteAt, List.getD, List.getElem?_take, h]

theorem readU32LE_drop (l : List Nat) (n : Nat) :
    readU32LE l n = readU32LE (l.drop n) 0 := by
  unfold readU32LE
  simp [byteAt_drop]

theorem readU32LE_take (l : List Nat) (k off : Nat) (h : off + 4 ≤ k) :
    readU32LE (l.take k) off = readU32LE l off := by
  unfold readU32LE
  rw [byteAt_take l k off (by omega), byteAt_take l k (off + 1) (by omega),
    byteAt_take l k (off + 2) (by omega), byteAt_take l k (off + 3) (by omega)]

theorem u32LE_length (n : Nat) : (u32LE n).length = 4 := rfl

theorem u64LE_length (n : Nat) : (u64LE n).length = 8 := rfl

theorem i64LE_length (z : Int) : (i64LE z).length = 8 := rfl

theorem readU32LE_u32LE_append (n : Nat) (rest : List Nat) (h : n < 4294967296) :
    readU32LE (u32LE n ++ rest) 0 = n := by
  have h0 : readU32LE (u32LE n ++ rest) 0 =
      n % 256 + 256 * (n / 256 % 256) + 65536 * (n / 65536 % 256) +
        16777216 * (n / 16777216 % 256) := rfl
  omega

theorem readU64LE_u64LE (n : Nat) (h : n < 18446744073709551616) :
    readU64LE (u64LE n) = n := by
  have h0 : readU64LE (u64LE n) =
      (n % 4294967296 % 256 + 256 * (n % 4294967296 / 256 % 256) +
        65536 * (n % 4294967296 / 65536 % 256) +
        16777216 * (n % 4294967296 / 16777216 % 256)) +
      4294967296 *
      (n / 4294967296 % 4294967296 % 256 +
        256 * (n / 4294967296 % 4294967296 / 256 % 256) +
        65536 * (n / 4294967296 % 4294967296 / 65536 % 256) +
        16777216 * (n / 4294967296 % 4294967296 / 16777216 % 256)) := rfl
  omega

theorem readI64LE_i64LE (z : Int) (h1 : -9223372036854775808 ≤ z)
    (h2 : z < 9223372036854775808) : readI64LE (i64LE z) = z := by
  have hm : (Int.toNat (z % 18446744073709551616) : Int) =
      z % 18446744073709551616 := by omega
  have hlow : readU32LE (i64LE z) 0 =
      Int.toNat (z % 18446744073709551616) % 4294967296 % 256 +
        256 * (Int.toNat (z % 18446744073709551616) % 4294967296 / 256 % 256) +
        65536 * (Int.toNat (z % 18446744073709551616) % 4294967296 / 65536 % 256) +
        16777216 * (Int.toNat (z % 18446744073709551616) % 4294967296 / 16777216 % 256) := rfl
  have hhigh : readU32LE (i64LE z) 4 =
      Int.toNat (z % 18446744073709551616) / 4294967296 % 4294967296 % 256 +
        256 * (Int.toNat (z % 18446744073709551616) / 4294967296 % 4294967296 / 256 % 256) +
        65536 * (Int.toNat (z % 18446744073709551616) / 4294967296 % 4294967296 / 65536 % 256) +
        16777216 * (Int.toNat (z % 18446744073709551616) / 4294967296 % 4294967296 / 16777216 % 256) := rfl
  unfold readI64LE readS32LE
  simp only [hlow, hhigh]
  split <;> omega

theorem serialize_length (e : RawLockEvent) (hL : e.lockId.length = 32)
    (hU : e.user.length = 32) :
    (serializeTokenLockedEvent e).length = 100 + e.recipientBytes.length := by
  simp [serializeTokenLockedEvent, tokenLockedDiscriminator, hL, hU,
    u64LE_length, u32LE_length, i64LE_length]
  omega

theorem serialize_take_8 (e : RawLockEvent) :
    (serializeTokenLockedEvent e).take 8 = tokenLockedDiscriminator := by
  unfold serializeTokenLockedEvent
  simp only [List.append_assoc]
  exact List.take_left' (by rfl)

theorem serialize_drop_8 (e : RawLockEvent) :
    (serializeTokenLockedEvent e).drop 8 =
      e.lockId ++ (e.user ++ (u64LE e.amount ++
        (u32LE e.recipientBytes.length ++ (e.recipientBytes ++
          (u64LE e.nonce ++ i64LE e.timestamp))))) := by
  unfold serializeTokenLockedEvent
  simp only [List.append_assoc]
  exact List.drop_left' (by rfl)

theorem serialize_drop_40 (e : RawLockEvent) (hL : e.lockId.length = 32) :
    (serializeTokenLockedEvent e).drop 40 =
      e.user ++ (u64LE e.amount ++ (u32LE e.recipientBytes.length ++
        (e.recipientBytes ++ (u64LE e.nonce ++ i64LE e.timestamp)))) := by
  have h : (serializeTokenLockedEvent e).drop 40 =
      ((serializeTokenLockedEvent e).drop 8).drop 32 := by
    rw [List.drop_drop]
  rw [h, serialize_drop_8, List.drop_left' hL]

theorem serialize_drop_72 (e : RawLockEvent) (hL : e.lockId.length = 32)
    (hU : e.user.length = 32) :
    (serializeTokenLockedEvent e).drop 72 =
      u64LE e.amount ++ (u32LE e.recipientBytes.length ++
        (e.recipientBytes ++ (u64LE e.nonce ++ i64LE e.timestamp))) := by
  have h : (serializeTokenLockedEvent e).drop 72 =
      ((serializeTokenLockedEvent e).drop 40).drop 32 := by
    rw [List.drop_drop]
  rw [h, serialize_drop_40 e hL, List.drop_left' hU]

theorem serialize_drop_80 (e : RawLockEvent) (hL : e.lockId.length = 32)
    (hU : e.user.length = 32) :
    (serializeTokenLockedEvent e).drop 80 =
      u32LE e.recipientBytes.length ++ (e.recipientBytes ++
        (u64LE e.nonce ++ i64LE e.timestamp)) := by
  have h : (serializeTokenLockedEvent e).drop 80 =
      ((serializeTokenLockedEvent e).drop 72).drop 8 := by
    rw [List.drop_drop]
  rw [h, serialize_drop_72 e hL hU, List.drop_left' (u64LE_length _)]

theorem serialize_drop_84 (e : RawLockEvent) (hL : e.lockId.length = 32)
    (hU : e.user.length = 32) :
    (serializeTokenLockedEvent e).drop 84 =
      e.recipientBytes ++ (u64LE e.nonce ++ i64LE e.timestamp) := by
  have h : (serializeTokenLockedEvent e).drop 84 =
      ((serializeTokenLockedEvent e).drop 80).drop 4 := by
    rw [List.drop_drop]
  rw [h, serialize_drop_80 e hL hU, List.drop_left' (u32LE_length _)]

theorem serialize_drop_84n (e : RawLockEvent) (hL : e.lockId.length = 32)
    (hU : e.user.length = 32) :
    (serializeTokenLockedEvent e).drop (84 + e.recipientBytes.length) =
      u64LE e.nonce ++ i64LE e.timestamp := by
  have h : (serializeTokenLockedEvent e).drop (84 + e.recipientBytes.length) =
      ((serializeTokenLockedEvent e).drop 84).drop e.recipientBytes.length := by
    rw [List.drop_drop]
  rw [h, serialize_drop_84 e hL hU, List.drop_left' rfl]

theorem serialize_drop_92n (e : RawLockEvent) (hL : e.lockId.length = 32)
    (hU : e.user.length = 32) :
    (serializeTokenLockedEvent e).drop (92 + e.recipientBytes.length) =
      i64LE e.timestamp := by
  have h : (serializeTokenLockedEvent e).drop (92 + e.recipientBytes.length) =
      ((serializeTokenLockedEvent e).drop (84 + e.recipientBytes.length)).drop 8 := by
    rw [List.drop_drop]
    congr 1
    omega
  rw [h, serialize_drop_84n e hL hU, List.drop_left' (u64LE_length _)]

theorem readU32LE_serialize_80 (e : RawLockEvent) (hL : e.lockId.length = 32)
    (hU : e.user.length = 32) (hR : e.recipientBytes.length < 4294967296) :
    readU32LE (serializeTokenLockedEvent e) 80 = e.recipientBytes.length := by
  rw [readU32LE_drop, serialize_drop_80 e hL hU]
  exact readU32LE_u32LE_append _ _ hR

theorem parse_serialize (e : RawLockEvent) (h : e.wf) :
    parseTokenLockedEvent (serializeTokenLockedEvent e) = some e := by
  obtain ⟨hL, hU, hA, hR, hN, hT1, hT2⟩ := h
  have hlen := serialize_length e hL hU
  have hrlen := readU32LE_serialize_80 e hL hU hR
  simp only [parseTokenLockedEvent]
  split_ifs with g1 g2 g3 g4 g5 g6 g7 g8 g9
  · omega
  · exact absurd (serialize_take_8 e) g2
  · omega
  · omega
  · omega
  · omega
  · rw [hrlen] at g7; omega
  · rw [hrlen] at g8; omega
  · rw [hrlen] at g9; omega
  · rw [hrlen, serialize_drop_8, List.take_left' hL, serialize_drop_40 e hL,
      List.take_left' hU, serialize_drop_72 e hL hU,
      List.take_left' (u64LE_length _), readU64LE_u64LE _ hA,
      serialize_drop_84 e hL hU, List.take_left' rfl,
      serialize_drop_84n e hL hU, List.take_left' (u64LE_length _),
      readU64LE_u64LE _ hN, serialize_drop_92n e hL hU,
      List.take_of_length_le (by rw [i64LE_length]),
      readI64LE_i64LE _ hT1 hT2]

theorem parse_some_conditions (d : List Nat) (ev : RawLockEvent)
    (h : parseTokenLockedEvent d = some ev) :
    d.take 8 = tokenLockedDiscriminator ∧ 84 ≤ d.length ∧
      100 + readU32LE d 80 ≤ d.length := by
  simp only [parseTokenLockedEvent] at h
  split_ifs at h with g1 g2 g3 g4 g5 g6 g7 g8 g9
  exact ⟨not_not.mp g2, by omega, by omega⟩

/-- C9: for every valid lock event E, parsing the binary log encoding of E
(8-byte discriminator, 32-byte lock id, 32-byte account, u64 LE amount,
4-byte length-prefixed UTF-8 recipient, u64 LE nonce, i64 LE timestamp) with
`parseTokenLockedEvent` returns exactly the fields of E, and every truncated
buffer and every buffer with a mismatched discriminator parses to `none`. -/
theorem tokenLocked_codec_roundtrip (e : RawLockEvent) (h : e.wf) :
    parseTokenLockedEvent (serializeTokenLockedEvent e) = some e ∧
    (∀ k, k < (serializeTokenLockedEvent e).length →
      parseTokenLockedEvent ((serializeTokenLockedEvent e).take k) = none) ∧
    (∀ d : List Nat, d.take 8 ≠ tokenLockedDiscriminator →
      parseTokenLockedEvent d = none) := by
  obtain ⟨hL, hU, hA, hR, hN, hT1, hT2⟩ := h
  refine ⟨parse_serialize e ⟨hL, hU, hA, hR, hN, hT1, hT2⟩, ?_, ?_⟩
  · intro k hk
    cases hp : parseTokenLockedEvent ((serializeTokenLockedEvent e).take k) with
    | none => rfl
    | some ev =>
      exfalso
      obtain ⟨hd, h84, h100⟩ := parse_some_conditions _ _ hp
      have hlen := serialize_length e hL hU
      have hkl : ((serializeTokenLockedEvent e).take k).length = k := by
        rw [List.length_take]; omega
      have hr : readU32LE ((serializeTokenLockedEvent e).take k) 80 =
          readU32LE (serializeTokenLockedEvent e) 80 :=
        readU32LE_take _ _ _ (by omega)
      rw [hr, readU32LE_serialize_80 e hL hU hR] at h100
      omega
  · intro d hd
    cases hp : parseTokenLockedEvent d with
    | none => rfl
    | some ev =>
      exact absurd (parse_some_conditions _ _ hp).1 hd

/-- Witness for C9: the round trip evaluated at a concrete valid event. -/
theorem tokenLocked_codec_roundtrip_witness :
    sampleLockEvent.wf ∧
      parseTokenLockedEvent (serializeTokenLockedEvent sampleLockEvent) =
        some sampleLockEvent :=
  ⟨by decide, (tokenLocked_codec_roundtrip sampleLockEvent (by decide)).1⟩

/-- C4 counterexample: in the fallback path the format check runs before the
block-age logic, so a format-invalid hash with `blockAge < 0` yields the
definitive boolean `false`, not a ValidationPending signal as the claim
states for every negative block age. -/
theorem fallback_negative_age_not_always_pending :
    ((50 : Int) - (100 : Int) < 0) ∧
    verifyBlockHashFallback [] "xx" 100 50 = (BlockCheck.failed, []) ∧
    BlockCheck.failed ≠ BlockCheck.pending := by decide

/-- C4 (amended): in `verifyBlockHash` fallback, for a format-valid hash the
outcome is exactly `pending` when `blockAge < 0`, exactly `pending` when
`0 ≤ blockAge < 10`, and exactly `true` with the hash added to the trusted
set when `blockAge ≥ 10`; a format-invalid hash yields the definitive
boolean `false` regardless of the block age. -/
theorem verifyBlockHash_fallback_trichotomy (trusted : List String)
    (hash : String) (height currentSlot : Nat) :
    (blockHashFormatValid hash = true →
      ((currentSlot : Int) - (height : Int) < 0 →
        verifyBlockHashFallback trusted hash height currentSlot =
          (BlockCheck.pending, trusted)) ∧
      (0 ≤ (currentSlot : Int) - (height : Int) →
        (currentSlot : Int) - (height : Int) < 10 →
        verifyBlockHashFallback trusted hash height currentSlot =
          (BlockCheck.pending, trusted)) ∧
      (10 ≤ (currentSlot : Int) - (height : Int) →
        verifyBlockHashFallback trusted hash height currentSlot =
          (BlockCheck.verified, hash :: trusted))) ∧
    (blockHashFormatValid hash = false →
      verifyBlockHashFallback trusted hash height currentSlot =
        (BlockCheck.failed, trusted)) := by
  constructor
  · intro hfmt
    have hne : ¬ blockHashFormatValid hash = false := by simp [hfmt]
    refine ⟨?_, ?_, ?_⟩
    · intro hage
      unfold verifyBlockHashFallback
      dsimp only
      rw [if_neg hne, if_pos hage]
    · intro h0 h10
      unfold verifyBlockHashFallback
      dsimp only
      rw [if_neg hne, if_neg (by omega), if_pos h10]
    · intro h10
      unfold verifyBlockHashFallback
      dsimp only
      rw [if_neg hne, if_neg (by omega), if_neg (by omega)]
  · intro hfmt
    unfold verifyBlockHashFallback
    dsimp only
    rw [if_pos hfmt]

/-- Witness for C4: the three fallback outcomes at concrete inputs. -/
theorem verifyBlockHash_fallback_trichotomy_witness :
    blockHashFormatValid sampleBlockHash = true ∧
    verifyBlockHashFallback [] sampleBlockHash 100 95 = (BlockCheck.pending, []) ∧
    verifyBlockHashFallback [] sampleBlockHash 100 105 = (BlockCheck.pending, []) ∧
    verifyBlockHashFallback [] sampleBlockHash 100 110 =
      (BlockCheck.verified, [sampleBlockHash]) :=
  ⟨by decide,
    ((verifyBlockHash_fallback_trichotomy [] sampleBlockHash 100 95).1
      (by decide)).1 (by decide),
    (((verifyBlockHash_fallback_trichotomy [] sampleBlockHash 100 105).1
      (by decide)).2.1 (by decide) (by decide)),
    (((verifyBlockHash_fallback_trichotomy [] sampleBlockHash 100 110).1
      (by decide)).2.2 (by decide))⟩

/-- Every successful run of `validateGenesisProof` returns exactly the record
built by `mkGenesisProof`, with `blockVerified` reflecting the block check
outcome. -/
theorem validateGenesisProof_ok_shape (p : ProofDataM) (bo : BlockCheck)
    (tx : Except String Unit) (now : Nat) (g : GenesisProofM)
    (h : validateGenesisProof p bo tx now = .ok g) :
    g = mkGenesisProof p (decide (bo = BlockCheck.verified))
      (signatureStatusVerifiedOf p.signatureStatus) now := by
  unfold validateGenesisProof at h
  cases hv : validateLockEvent p.event with
  | error e => rw [hv] at h; exact absurd h (by simp)
  | ok u =>
    rw [hv] at h
    cases bo with
    | failed => exact absurd h (by simp at h ⊢)
    | verified =>
      simp only [decide_eq_true_eq] at h ⊢
      by_cases hsv : signatureStatusVerifiedOf p.signatureStatus = true
      · rw [hsv] at h
        cases tx with
        | error e => simp at h
        | ok v =>
          simp only [Bool.and_self, if_pos] at h
          cases h
          simp [hsv]
      · have hsv' : signatureStatusVerifiedOf p.signatureStatus = false := by
          revert hsv; cases signatureStatusVerifiedOf p.signatureStatus <;> simp
        rw [hsv'] at h
        simp only [Bool.and_false, if_neg] at h
        cases h
        simp [hsv']
    | pending =>
      simp only [Bool.false_and] at h
      cases h
      simp

/-- C3 counterexample: when block verification succeeds, the produced
artifact carries no `status` field at all (`none`), not the value
`"VALIDATED"` — the source only spreads `status` into the validation record
in doubtfully pending runs. -/
theorem genesis_status_absent_when_verified :
    validateGenesisProof sampleProofData BlockCheck.verified (Except.ok ()) 0 =
      Except.ok (mkGenesisProof sampleProofData true true 0) ∧
    (mkGenesisProof sampleProofData true true 0).validation.blockVerified = true ∧
    (mkGenesisProof sampleProofData true true 0).validation.status = none ∧
    (mkGenesisProof sampleProofData true true 0).validation.status ≠
      some "VALIDATED" :=
  ⟨by rfl, by decide, by decide, by decide⟩

/-- C3 (amended): `validateGenesisProof` returns a ValidatedProof both when
block verification succeeds and when it is pending; `validation.status`
equals `"PENDING_VALIDATION"` exactly when `blockVerified` is false, and a
reason string is set in exactly that case; when `blockVerified` is true the
`status` field is absent (`none`), not `"VALIDATED"`. -/
theorem genesis_status_pending_iff (p : ProofDataM) (bo : BlockCheck)
    (tx : Except String Unit) (now : Nat) (g : GenesisProofM)
    (h : validateGenesisProof p bo tx now = .ok g) :
    (g.validation.status = some "PENDING_VALIDATION" ↔
      g.validation.blockVerified = false) ∧
    (g.validation.blockVerified = true → g.validation.status = none) ∧
    (g.validation.blockVerified = false →
      g.validation.reason = some ("Block " ++ toString p.blockHeight ++
        " too recent for RPC validation")) := by
  rw [validateGenesisProof_ok_shape p bo tx now g h]
  cases hbo : decide (bo = BlockCheck.verified) <;>
    simp [mkGenesisProof]

/-- Witness for C3: the amended statement evaluated on a concrete pending
run. -/
theorem genesis_status_pending_iff_witness :
    validateGenesisProof sampleProofData BlockCheck.pending (Except.ok ()) 0 =
      Except.ok (mkGenesisProof sampleProofData false true 0) ∧
    ((mkGenesisProof sampleProofData false true 0).validation.status =
        some "PENDING_VALIDATION" ↔
      (mkGenesisProof sampleProofData false true 0).validation.blockVerified =
        false) :=
  ⟨by rfl,
    (genesis_status_pending_iff sampleProofData BlockCheck.pending
      (Except.ok ()) 0 (mkGenesisProof sampleProofData false true 0)
      (by rfl)).1⟩

/-- C5: the block-verification step of `validateGenesisProof` has exactly
three outcomes: a `true` from `verifyBlockHash` proceeds with
`blockVerified = true`; a `false` raises the fatal
`Block hash verification failed` error, producing no ValidatedProof; and a
caught `VALIDATION_PENDING` exception sets `blockVerified = false` yet still
produces a ValidatedProof.  In particular a fallback run with
`blockAge = -5` yields the `pending` outcome, and the monitor then proceeds
to the mint submission without raising. -/
theorem block_verification_three_outcomes (p : ProofDataM)
    (tx : Except String Unit) (now : Nat)
    (hev : validateLockEvent p.event = .ok ()) (htx : tx = .ok ()) :
    (validateGenesisProof p BlockCheck.verified tx now =
      .ok (mkGenesisProof p true
        (signatureStatusVerifiedOf p.signatureStatus) now) ∧
      (mkGenesisProof p true
        (signatureStatusVerifiedOf p.signatureStatus) now).validation.blockVerified
        = true) ∧
    (validateGenesisProof p BlockCheck.failed tx now =
      .error "Block hash verification failed") ∧
    (validateGenesisProof p BlockCheck.pending tx now =
      .ok (mkGenesisProof p false
        (signatureStatusVerifiedOf p.signatureStatus) now) ∧
      (mkGenesisProof p false
        (signatureStatusVerifiedOf p.signatureStatus) now).validation.blockVerified
        = false ∧
      (mkGenesisProof p false
        (signatureStatusVerifiedOf p.signatureStatus) now).validation.status =
        some "PENDING_VALIDATION") ∧
    (∀ trusted hash (height currentSlot : Nat),
      blockHashFormatValid hash = true →
      (currentSlot : Int) - (height : Int) = -5 →
      (verifyBlockHashFallback trusted hash height currentSlot).1 =
        BlockCheck.pending) ∧
    (∀ st : MonitorState, p.txSignature ∉ st.processedTransactions →
      ∀ rq mintOk,
        (processBridgeEvent st p BlockCheck.pending tx now rq mintOk).2 =
          .minted (restoreRecipient p.event.unicityRecipient) (!mintOk)) := by
  subst htx
  refine ⟨⟨?_, ?_⟩, ?_, ⟨?_, ?_, ?_⟩, ?_, ?_⟩
  · unfold validateGenesisProof
    rw [hev]
    cases hsv : signatureStatusVerifiedOf p.signatureStatus <;> simp [hsv]
  · simp [mkGenesisProof]
  · unfold validateGenesisProof
    rw [hev]
  · unfold validateGenesisProof
    rw [hev]
    simp
  · simp [mkGenesisProof]
  · simp [mkGenesisProof]
  · intro trusted hash height currentSlot hfmt hage
    have := ((verifyBlockHash_fallback_trichotomy trusted hash height
      currentSlot).1 hfmt).1 (by omega)
    rw [this]
  · intro st hmem rq mintOk
    unfold processBridgeEvent
    rw [if_neg hmem]
    have hok : validateGenesisProof p BlockCheck.pending (Except.ok ()) now =
        .ok (mkGenesisProof p false
          (signatureStatusVerifiedOf p.signatureStatus) now) := by
      unfold validateGenesisProof
      rw [hev]
      simp
    rw [hok]

/-- Witness for C5: the three outcomes evaluated on the concrete sample
proof. -/
theorem block_verification_three_outcomes_witness :
    validateLockEvent sampleProofData.event = .ok () ∧
    validateGenesisProof sampleProofData BlockCheck.failed (Except.ok ()) 0 =
      .error "Block hash verification failed" :=
  ⟨by rfl,
    (block_verification_three_outcomes sampleProofData (Except.ok ()) 0
      (by rfl) rfl).2.1⟩

/-- C6 counterexample: a record with `err = null` and a valid
`confirmationStatus` but a null `confirmations` field is NOT accepted — the
guard in step 3 of `validateGenesisProof` requires `confirmations` to be a
number, so the claim that such records verify to true fails. -/
theorem null_confirmations_not_verified :
    nullConfirmationsSigStatus.err = none ∧
    nullConfirmationsSigStatus.confirmationStatus = some "finalized" ∧
    signatureStatusVerifiedOf (some nullConfirmationsSigStatus) = false := by
  decide

/-- C6 (amended): the confirmation-status step never raises (it is a total
boolean function), and `signatureStatusVerified` is true exactly when the
proof carries a record whose `err` is null, whose `confirmationStatus` is a
non-empty member of the valid enum set, and whose `confirmations` and `slot`
fields are both present numbers — a record with `confirmations = null` is
rejected. -/
theorem signatureStatusVerified_characterization (o : Option SigStatus) :
    signatureStatusVerifiedOf o = true ↔
      ∃ r, o = some r ∧ r.err = none ∧ r.confirmations ≠ none ∧
        r.slot ≠ none ∧
        ∃ cs, r.confirmationStatus = some cs ∧
          (cs = "processed" ∨ cs = "confirmed" ∨ cs = "finalized") := by
  cases o with
  | none => simp [signatureStatusVerifiedOf]
  | some r =>
    obtain ⟨ocs, ocf, oerr, osl⟩ := r
    cases ocs with
    | none => simp [signatureStatusVerifiedOf]
    | some cs =>
      cases ocf with
      | none => simp [signatureStatusVerifiedOf]
      | some cf =>
        cases osl with
        | none => simp [signatureStatusVerifiedOf]
        | some sl =>
          by_cases hcs : cs = ""
          · subst hcs
            simp [signatureStatusVerifiedOf]
          · cases oerr with
            | some e =>
              simp [signatureStatusVerifiedOf, verifySignatureStatus, hcs]
            | none =>
              simp [signatureStatusVerifiedOf, verifySignatureStatus, hcs]

/-- C7 counterexample: a mismatch between the stored transaction primary
signature and the claimed signature raises `Transaction signature mismatch`
inside the `try` block, but the outer `catch` of
`validateCryptographicChain` converts it into the plain return value
`false` — no exception reaches the caller, so the mismatch is not fatal in
the claimed sense. -/
theorem chain_signature_mismatch_returns_false :
    validateCryptographicChainInner (some sampleSigStatus)
      mismatchGenesisProof = .error "Transaction signature mismatch" ∧
    validateCryptographicChain (some sampleSigStatus)
      mismatchGenesisProof = false := by
  constructor
  · rfl
  · rfl

/-- C7 (amended): `validateCryptographicChain` returns true only if the
re-queried signature status exists and is error-free; with no embedded
transaction data it returns true; a primary-signature mismatch yields the
return value `false` (the internally thrown error is caught before the
function returns, so no exception escapes); and when the signatures match,
the result is true exactly when the stored `confirmationStatus` is
`confirmed` or `finalized`. -/
theorem validateCryptographicChain_characterization (rq : Option SigStatus)
    (g : GenesisProofM) :
    (rq = none → validateCryptographicChain rq g = false) ∧
    (∀ st, rq = some st → st.err ≠ none →
      validateCryptographicChain rq g = false) ∧
    (∀ st, rq = some st → st.err = none →
      (g.solanaTransaction.transactionData = none →
        validateCryptographicChain rq g = true) ∧
      (∀ tx inner sigs, g.solanaTransaction.transactionData = some tx →
        tx.txn = some inner → inner.signatures = some sigs →
        (sigs.head? ≠ some g.solanaTransaction.signature →
          validateCryptographicChain rq g = false) ∧
        (sigs.head? = some g.solanaTransaction.signature →
          (validateCryptographicChain rq g = true ↔
            (g.solanaTransaction.confirmationStatus = "finalized" ∨
              g.solanaTransaction.confirmationStatus = "confirmed"))))) := by
  refine ⟨?_, ?_, ?_⟩
  · intro h
    subst h
    rfl
  · intro st hst herr
    subst hst
    have : st.err.isSome = true := Option.isSome_iff_ne_none.mpr herr
    simp [validateCryptographicChain, validateCryptographicChainInner, this]
  · intro st hst herr
    subst hst
    have hs : st.err.isSome = false := by simp [herr]
    constructor
    · intro hnone
      simp [validateCryptographicChain, validateCryptographicChainInner,
        hs, hnone]
    · intro tx inner sigs htx hinner hsigs
      constructor
      · intro hne
        simp [validateCryptographicChain, validateCryptographicChainInner,
          hs, htx, hinner, hsigs, hne]
      · intro heq
        simp [validateCryptographicChain, validateCryptographicChainInner,
          hs, htx, hinner, hsigs, heq]

/-- Witness for C7: the characterization applied at concrete inputs — a
match with status `finalized` yields true. -/
theorem validateCryptographicChain_characterization_witness :
    sampleSigStatus.err = none ∧
    validateCryptographicChain (some sampleSigStatus) sampleGenesisProof =
      true :=
  ⟨by decide,
    (((validateCryptographicChain_characterization (some sampleSigStatus)
      sampleGenesisProof).2.2 sampleSigStatus rfl (by decide)).1 (by rfl))⟩

/-- The pre-image hashed for the token id at mint time and the pre-image
recomputed by `validateTokenIdDerivation` differ for every nonempty minter
signature: the minting path never mixes the signature into the hash
input. -/
theorem mintTokenIdInput_ne_verifierTokenIdInput (c sig : String)
    (h : sig ≠ "") : mintTokenIdInput c ≠ verifierTokenIdInput c sig := by
  intro heq
  have hlen := congrArg String.length heq
  simp only [mintTokenIdInput, verifierTokenIdInput,
    String.length_append] at hlen
  have hz : sig.length = 0 := by omega
  apply h
  cases sig with
  | mk data =>
    simp [String.length] at hz
    simp [hz]

/-- Both code sites build the commitment string identically, so they agree
definitionally on the same decoded fields. -/
theorem mintCommitmentData_eq_verifierCommitmentData (g : GenesisProofM) :
    mintCommitmentData g = verifierCommitmentData (mintTokenData g) := rfl

/-- C1: evaluation at a concrete ValidatedProof.  The two paths agree on the
commitment string, but the minting path hashes
`commitmentData ++ "_tokenId"` with no minter signature (and stores no
`minterSignature` field), while the claim and the independent verifier hash
`commitmentData ++ minterSignature ++ "_tokenId"`; the two hash pre-images
differ for every nonempty signature, so the mint-time token id is not the
claimed `Hash(commitmentString || minterSignatureBytes || "_tokenId")`. -/
theorem mint_tokenId_omits_minter_signature :
    mintCommitmentData sampleGenesisProof =
      verifierCommitmentData (mintTokenData sampleGenesisProof) ∧
    (mintTokenData sampleGenesisProof).minterSignature = none ∧
    mintTokenIdInput (mintCommitmentData sampleGenesisProof) ≠
      verifierTokenIdInput (mintCommitmentData sampleGenesisProof)
        sampleMinterSignature ∧
    (∀ sig : String, sig ≠ "" →
      mintTokenIdInput (mintCommitmentData sampleGenesisProof) ≠
        verifierTokenIdInput (mintCommitmentData sampleGenesisProof) sig) :=
  ⟨rfl, rfl,
    mintTokenIdInput_ne_verifierTokenIdInput _ _ (by decide),
    fun sig h => mintTokenIdInput_ne_verifierTokenIdInput _ _ h⟩

/-- Witness for C1: the pre-image inequality discharged at the concrete
sample signature. -/
theorem mint_tokenId_omits_minter_signature_witness :
    sampleMinterSignature ≠ "" ∧
    mintTokenIdInput (mintCommitmentData sampleGenesisProof) ≠
      verifierTokenIdInput (mintCommitmentData sampleGenesisProof)
        sampleMinterSignature :=
  ⟨by decide,
    mint_tokenId_omits_minter_signature.2.2.2 sampleMinterSignature
      (by decide)⟩

/-- C2: the payload encoded by `mintBridgedTokenWithSDK` carries exactly the
fields `bridgeType`, `lockEvent` and `solanaTransaction` and no
`minterSignature` field; consequently, for every such token that passes the
SDK deserialization and the structural consistency check — and for every
possible continuation of the pipeline — `validateToken` returns
`valid = false` and stops at the mandatory minter-signature presence
check. -/
theorem minted_payload_fails_minter_signature_check (g : GenesisProofM)
    (rest : String → Bool × String)
    (hc : consistentSolanaLockingProof (mintTokenData g) =
      some (mintTokenData g)) :
    (mintTokenData g).minterSignature = none ∧
    validateTokenEarly true (mintTokenData g) = .missingMinterSignature ∧
    validateToken true (mintTokenData g) rest =
      (false, "Missing mandatory minter signature field") := by
  refine ⟨rfl, ?_, ?_⟩
  · unfold validateTokenEarly
    rw [hc]
    rfl
  · unfold validateToken validateTokenEarly
    rw [hc]
    rfl

/-- Witness for C2: the structural check passes on the concrete sample
payload and `validateToken` stops at the minter-signature check. -/
theorem minted_payload_fails_minter_signature_check_witness :
    consistentSolanaLockingProof (mintTokenData sampleGenesisProof) =
      some (mintTokenData sampleGenesisProof) ∧
    validateToken true (mintTokenData sampleGenesisProof) (fun s => (true, s)) =
      (false, "Missing mandatory minter signature field") :=
  ⟨by decide,
    (minted_payload_fails_minter_signature_check sampleGenesisProof
      (fun s => (true, s)) (by decide)).2.2⟩

/-- C8: for every lock event whose recipient is a 64-hex-character digest the
monitor (and the demo flow) restores the canonical `[SHA256]` tag before
handing the recipient to minting, and every other recipient passes through
unchanged. -/
theorem hex_recipient_restored (e : LockEventBN) :
    ((e.unicityRecipient.data.length = 64 ∧
        ∀ c ∈ e.unicityRecipient.data, isHexDigitChar c = true) →
      monitorMintRecipient e = "[SHA256]" ++ e.unicityRecipient ∧
      demoEventRecipient e = "[SHA256]" ++ e.unicityRecipient) ∧
    (¬(e.unicityRecipient.data.length = 64 ∧
        ∀ c ∈ e.unicityRecipient.data, isHexDigitChar c = true) →
      monitorMintRecipient e = e.unicityRecipient ∧
      demoEventRecipient e = e.unicityRecipient) := by
  have hiff : recipientLooksLikeDigest e.unicityRecipient = true ↔
      (e.unicityRecipient.data.length = 64 ∧
        ∀ c ∈ e.unicityRecipient.data, isHexDigitChar c = true) := by
    simp [recipientLooksLikeDigest, List.all_eq_true]
  constructor
  · intro h
    have ht := hiff.mpr h
    constructor <;>
      simp [monitorMintRecipient, demoEventRecipient, restoreRecipient, ht]
  · intro h
    have hf : ¬ recipientLooksLikeDigest e.unicityRecipient = true :=
      fun hx => h (hiff.mp hx)
    constructor
    · unfold monitorMintRecipient restoreRecipient
      rw [if_neg hf]
    · unfold demoEventRecipient restoreRecipient
      rw [if_neg hf]

/-- Witness for C8: the digest-shaped sample recipient gets the tag back. -/
theorem hex_recipient_restored_witness :
    (sampleProofData.event.unicityRecipient.data.length = 64 ∧
      ∀ c ∈ sampleProofData.event.unicityRecipient.data,
        isHexDigitChar c = true) ∧
    monitorMintRecipient sampleProofData.event =
      "[SHA256]" ++ sampleProofData.event.unicityRecipient :=
  ⟨by decide, ((hex_recipient_restored sampleProofData.event).1 (by decide)).1⟩

/-- C10: the Replay Guard in `processBridgeEvent`.  A transaction signature
already in the processed set makes the call return before any validation or
mint submission, leaving the state untouched; `lastCheckedSlot` never
decreases; and a signature newly present in the post-state was added by this
call, which implies the duplicate check passed, the proof validated, and the
mint submission was attempted. -/
theorem replay_guard_properties (st : MonitorState) (p : ProofDataM)
    (bo : BlockCheck) (tx : Except String Unit) (now : Nat)
    (rq : Option SigStatus) (mintOk : Bool) :
    (p.txSignature ∈ st.processedTransactions →
      processBridgeEvent st p bo tx now rq mintOk =
        (st, .skippedDuplicate)) ∧
    st.lastCheckedSlot ≤
      (processBridgeEvent st p bo tx now rq mintOk).1.lastCheckedSlot ∧
    (∀ sig, sig ∉ st.processedTransactions →
      sig ∈ (processBridgeEvent st p bo tx now rq mintOk).1.processedTransactions →
      sig = p.txSignature ∧ p.txSignature ∉ st.processedTransactions ∧
      validateGenesisProof p bo tx now =
        .ok (mkGenesisProof p (decide (bo = BlockCheck.verified))
          (signatureStatusVerifiedOf p.signatureStatus) now) ∧
      (processBridgeEvent st p bo tx now rq mintOk).2 =
        .minted (restoreRecipient p.event.unicityRecipient) (!mintOk)) := by
  by_cases hdup : p.txSignature ∈ st.processedTransactions
  · refine ⟨fun _ => ?_, ?_, ?_⟩
    · unfold processBridgeEvent
      rw [if_pos hdup]
    · unfold processBridgeEvent
      rw [if_pos hdup]
    · intro sig hnot hpost
      exfalso
      unfold processBridgeEvent at hpost
      rw [if_pos hdup] at hpost
      exact hnot hpost
  · refine ⟨fun hmem => absurd hmem hdup, ?_, ?_⟩
    · unfold processBridgeEvent
      rw [if_neg hdup]
      cases hv : validateGenesisProof p bo tx now with
      | error e => simp
      | ok g => simp
    · intro sig hnot hpost
      unfold processBridgeEvent at hpost ⊢
      rw [if_neg hdup] at hpost ⊢
      cases hv : validateGenesisProof p bo tx now with
      | error e =>
        rw [hv] at hpost
        exact absurd hpost hnot
      | ok g =>
        rw [hv] at hpost
        simp at hpost
        rcases hpost with hpost | hpost
        · subst hpost
          have hg := validateGenesisProof_ok_shape p bo tx now g hv
          subst hg
          exact ⟨rfl, hdup, rfl, by simp⟩
        · exact absurd hpost hnot

/-- Witness for C10: a duplicate signature is skipped with the state
untouched. -/
theorem replay_guard_properties_witness :
    sampleProofData.txSignature ∈
      (MonitorState.mk [sampleProofData.txSignature] 5 1).processedTransactions ∧
    processBridgeEvent (MonitorState.mk [sampleProofData.txSignature] 5 1)
      sampleProofData BlockCheck.verified (Except.ok ()) 0
      (some sampleSigStatus) true =
      (MonitorState.mk [sampleProofData.txSignature] 5 1, .skippedDuplicate) :=
  ⟨by decide,
    (replay_guard_properties (MonitorState.mk [sampleProofData.txSignature] 5 1)
      sampleProofData BlockCheck.verified (Except.ok ()) 0
      (some sampleSigStatus) true).1 (by decide)⟩
